import Mathlib

/-!
Shallow embedding of the ledger and risk engine of the pet-market plugin
(`src/main.py`): loan-interest accrual, forced liquidation, the loan /
repayment / transfer commands, the debt-clawback queue, the market price
tick, and the weighted-average-cost investment operations.

Conventions:
* Python `int` values (coins, bank balances, loan amounts, timestamps)
  are `Int`; Python `//` on them is `Int.fdiv` (floor division).
* Python `float` quantities (rates, multipliers, prices, shares) are
  modelled as exact rationals `ℚ`; `int(x)` is `pyInt` (truncation
  toward zero) and `round(x, 4)` is exact half-even rounding at four
  decimal places.
* Display-only account fields (nickname, last_active, messages,
  transfer_history) carry no ledger semantics and are omitted.
-/

/-- Python `int(q)`: truncation of a rational toward zero, expressed
through the floor. -/
def pyInt (q : ℚ) : Int := if q < 0 then -⌊-q⌋ else ⌊q⌋

/-- Truncation toward zero agrees with the floor on nonnegative inputs. -/
theorem pyInt_eq_floor (q : ℚ) (h : 0 ≤ q) : pyInt q = ⌊q⌋ := by
  rw [pyInt, if_neg (not_lt.mpr h)]

/-- Python `//` by 3600 (hour bucketing) rewritten to Euclidean division,
for `omega` and `norm_num` (shared helper). -/
theorem fdiv_3600 (a : Int) : Int.fdiv a 3600 = a / 3600 :=
  Int.fdiv_eq_ediv _ (by norm_num)

/-- Truncation of a nonnegative rational is at most the rational. -/
theorem pyInt_le (q : ℚ) (h : 0 ≤ q) : (pyInt q : ℚ) ≤ q := by
  rw [pyInt_eq_floor q h]; exact Int.floor_le q

/-- Truncation of a nonnegative rational loses less than one. -/
theorem lt_pyInt_add_one (q : ℚ) (h : 0 ≤ q) : q - 1 < (pyInt q : ℚ) := by
  rw [pyInt_eq_floor q h]
  have := Int.sub_one_lt_floor q
  linarith

/-- Truncation preserves nonnegativity. -/
theorem pyInt_nonneg (q : ℚ) (h : 0 ≤ q) : 0 ≤ pyInt q := by
  rw [pyInt_eq_floor q h]
  exact Int.floor_nonneg.mpr h

/-- Configuration values read through `self.config.get(..., default)` in
the source, with their source defaults. -/
structure Config where
  loan_interest_rate : ℚ := 1/20
  loan_interest_max_multiplier : ℚ := 1
  loan_limit_per_level : Int := 5000
  transfer_fee_rate : ℚ := 1/10
  transfer_min_amount : Int := 100
  transfer_cooldown : Int := 1800
  deriving DecidableEq

/-- A transfer made while indebted, recorded in the sender's
`loan_transfers` list (entity ids are modelled as `Nat`). -/
structure TransferRecord where
  target : Nat
  amount : Int
  deriving DecidableEq

/-- A pending clawback task appended to `self.debt_queue` during
liquidation (the group id is implicit: one group is modelled). -/
structure DebtTask where
  debtor : Nat
  target : Nat
  amount : Int
  deriving DecidableEq

/-- The `INITIAL_COINS` constant: starting balance, and also the
subsistence ("welfare") floor used by liquidation. -/
def INITIAL_COINS : Int := 150

/-- The per-user ledger record, with the defaults of `_get_user_data`
(timestamps default to the creation instant in the source; `0` here).
A pet is represented by its `value` field, the only pet attribute the
ledger reads; display-only fields are omitted. -/
structure Account where
  coins : Int := INITIAL_COINS
  bank : Int := 0
  bank_level : Int := 1
  loan_amount : Int := 0
  loan_principal : Int := 0
  loan_interest_frozen : Bool := false
  last_loan_interest_time : Int := 0
  pets : List Int := []
  loan_transfers : List TransferRecord := []
  transfer_cooldown : Int := 0
  deriving DecidableEq

/-- Documented invariant: a zero loan balance implies a cleared principal
and an unfrozen interest state. -/
def LoanInvariant (u : Account) : Prop :=
  u.loan_amount = 0 → u.loan_principal = 0 ∧ u.loan_interest_frozen = false

instance (u : Account) : Decidable (LoanInvariant u) := by
  unfold LoanInvariant; infer_instance

/-- Shallow embedding of `Main._update_loan_interest` (src/main.py:887).
`now` stands for `int(time.time())`; the float computation
`loan_total * ((1 + rate) ** hours)` is carried out exactly in `ℚ`, so
the `math.isfinite` overflow guard of the source is unreachable here.
Returns the updated account and `interest_added`. -/
def update_loan_interest (cfg : Config) (now : Int) (u : Account) : Account × Int :=
  let loanTotal := u.loan_amount
  let principal := u.loan_principal
  if loanTotal ≤ 0 ∨ u.loan_interest_frozen then
    if loanTotal ≤ 0 then
      ({ u with last_loan_interest_time := now, loan_principal := 0,
                loan_interest_frozen := false }, 0)
    else
      ({ u with last_loan_interest_time := now }, 0)
  else
    let rate := cfg.loan_interest_rate
    let maxMultiplier := cfg.loan_interest_max_multiplier
    let last := u.last_loan_interest_time
    let hours := Int.fdiv (now - last) 3600
    if 1 ≤ hours then
      let theoreticalLoan : Int := pyInt ((loanTotal : ℚ) * (1 + rate) ^ hours.toNat)
      let newLoan : Int :=
        if maxMultiplier ≤ 0 then theoreticalLoan
        else
          let maxLoan := pyInt ((principal : ℚ) * (1 + maxMultiplier))
          if 0 < principal then min theoreticalLoan maxLoan else theoreticalLoan
      let interestAdded := newLoan - loanTotal
      ({ u with loan_amount := if 0 < interestAdded then newLoan else loanTotal,
                last_loan_interest_time := now }, interestAdded)
    else
      (u, 0)

/-- Accrual on a cleared (or negative) balance resets principal and the
frozen flag and stamps the watermark (shared shape lemma). -/
theorem update_loan_interest_cleared (cfg : Config) (now : Int) (u : Account)
    (h0 : u.loan_amount ≤ 0) :
    update_loan_interest cfg now u =
      ({ u with last_loan_interest_time := now, loan_principal := 0,
                loan_interest_frozen := false }, 0) := by
  unfold update_loan_interest
  rw [if_pos (Or.inl h0), if_pos h0]

/-- Accrual on a frozen positive loan only stamps the watermark (shared
shape lemma). -/
theorem update_loan_interest_frozen (cfg : Config) (now : Int) (u : Account)
    (hf : u.loan_interest_frozen = true) (h0 : ¬ u.loan_amount ≤ 0) :
    update_loan_interest cfg now u =
      ({ u with last_loan_interest_time := now }, 0) := by
  unfold update_loan_interest
  rw [if_pos (Or.inr hf), if_neg h0]

/-- Accrual on an active loan with less than one whole elapsed hour is a
no-op (shared shape lemma). -/
theorem update_loan_interest_idle (cfg : Config) (now : Int) (u : Account)
    (h0 : ¬ u.loan_amount ≤ 0) (hf : u.loan_interest_frozen = false)
    (hh : ¬ 1 ≤ Int.fdiv (now - u.last_loan_interest_time) 3600) :
    update_loan_interest cfg now u = (u, 0) := by
  unfold update_loan_interest
  rw [if_neg (by simp [hf, h0]), if_neg hh]

/-- Accrual on an active loan with at least one whole elapsed hour keeps
every field except a (never decreased) `loan_amount` and the watermark,
which is advanced to `now` even when no interest is added (shared shape
lemma). -/
theorem update_loan_interest_active_shape (cfg : Config) (now : Int) (u : Account)
    (h0 : ¬ u.loan_amount ≤ 0) (hf : u.loan_interest_frozen = false)
    (hh : 1 ≤ Int.fdiv (now - u.last_loan_interest_time) 3600) :
    ∃ L, (update_loan_interest cfg now u).1
          = { u with loan_amount := L, last_loan_interest_time := now } ∧
        u.loan_amount ≤ L := by
  unfold update_loan_interest
  rw [if_neg (by simp [hf, h0]), if_pos hh]
  exact ⟨_, rfl, by dsimp only; split_ifs <;> omega⟩

/-- Accrual only ever raises `loan_amount` (shared helper). -/
theorem update_loan_interest_loan_le (cfg : Config) (now : Int) (u : Account) :
    u.loan_amount ≤ ((update_loan_interest cfg now u).1).loan_amount := by
  by_cases h0 : u.loan_amount ≤ 0
  · rw [update_loan_interest_cleared cfg now u h0]
  · cases hf : u.loan_interest_frozen with
    | true => rw [update_loan_interest_frozen cfg now u hf h0]
    | false =>
      by_cases hh : 1 ≤ Int.fdiv (now - u.last_loan_interest_time) 3600
      · obtain ⟨L, hL, hle⟩ := update_loan_interest_active_shape cfg now u h0 hf hh
        rw [hL]
        exact hle
      · rw [update_loan_interest_idle cfg now u h0 hf hh]

/-- Accrual never touches coins, bank or pets (shared helper). -/
theorem update_loan_interest_frame (cfg : Config) (now : Int) (u : Account) :
    ((update_loan_interest cfg now u).1).coins = u.coins ∧
    ((update_loan_interest cfg now u).1).bank = u.bank ∧
    ((update_loan_interest cfg now u).1).pets = u.pets := by
  by_cases h0 : u.loan_amount ≤ 0
  · rw [update_loan_interest_cleared cfg now u h0]
    exact ⟨rfl, rfl, rfl⟩
  · cases hf : u.loan_interest_frozen with
    | true =>
      rw [update_loan_interest_frozen cfg now u hf h0]
      exact ⟨rfl, rfl, rfl⟩
    | false =>
      by_cases hh : 1 ≤ Int.fdiv (now - u.last_loan_interest_time) 3600
      · obtain ⟨L, hL, _⟩ := update_loan_interest_active_shape cfg now u h0 hf hh
        rw [hL]
        exact ⟨rfl, rfl, rfl⟩
      · rw [update_loan_interest_idle cfg now u h0 hf hh]
        exact ⟨rfl, rfl, rfl⟩

/-- Accrual always re-establishes the zero-loan invariant (shared
helper). -/
theorem update_loan_interest_invariant (cfg : Config) (now : Int) (u : Account) :
    LoanInvariant (update_loan_interest cfg now u).1 := by
  by_cases h0 : u.loan_amount ≤ 0
  · rw [update_loan_interest_cleared cfg now u h0]
    exact fun _ => ⟨rfl, rfl⟩
  · cases hf : u.loan_interest_frozen with
    | true =>
      rw [update_loan_interest_frozen cfg now u hf h0]
      intro hz
      have hz' : u.loan_amount = 0 := hz
      exact absurd hz' (by omega)
    | false =>
      by_cases hh : 1 ≤ Int.fdiv (now - u.last_loan_interest_time) 3600
      · obtain ⟨L, hL, hle⟩ := update_loan_interest_active_shape cfg now u h0 hf hh
        rw [hL]
        intro hz
        have hz' : L = 0 := hz
        exact absurd hz' (by omega)
      · rw [update_loan_interest_idle cfg now u h0 hf hh]
        intro hz
        have hz' : u.loan_amount = 0 := hz
        exact absurd hz' (by omega)

/-- C10: the loan-interest accrual step never decreases `loan_amount`:
for every configuration, call time and account state, the balance after
`_update_loan_interest` is at least the balance before, even when the
accrued theoretical amount falls below the cap or the current loan. -/
theorem accrual_never_decreases_loan (cfg : Config) (now : Int) (u : Account) :
    u.loan_amount ≤ ((update_loan_interest cfg now u).1).loan_amount :=
  update_loan_interest_loan_le cfg now u

/-- Account used by the C4 theorems: an active, unfrozen 1000-coin loan
whose interest watermark sits at time 0. -/
def c4ActiveAccount : Account :=
  { coins := 0, loan_amount := 1000, loan_principal := 1000,
    last_loan_interest_time := 0 }

/-- C4 counterexample: with the watermark at 0, a first accrual call at
t₁ = 3599 is a no-op that does not advance the watermark, so a second
call at t₂ = 3600 — one second later, well within 3599 seconds — adds
50 coins of interest and raises `loan_amount` to 1050, contradicting
the claim that a second call within 3599 seconds adds nothing. -/
theorem accrual_second_call_adds_interest :
    ((3600 : Int) - 3599 ≤ 3599) ∧
    (update_loan_interest {} 3599 c4ActiveAccount).2 = 0 ∧
    (update_loan_interest {} 3600 (update_loan_interest {} 3599 c4ActiveAccount).1).2 = 50 ∧
    (update_loan_interest {} 3600
        (update_loan_interest {} 3599 c4ActiveAccount).1).1.loan_amount = 1050 := by
  refine ⟨by norm_num, ?_, ?_, ?_⟩
  all_goals simp only [update_loan_interest, c4ActiveAccount, fdiv_3600]
  all_goals norm_num [pyInt]

/-- C4 (amended): for an active (unfrozen) loan, if at least one whole
hour has elapsed at the first accrual call — so that the call stamps the
watermark with its own time, even when the cap prevents any interest —
then a second call within 3599 seconds adds no further interest and
leaves `loan_amount` unchanged; moreover the watermark never moves
backward. -/
theorem accrual_idempotent_within_hour (cfg : Config) (u : Account) (t1 t2 : Int)
    (h0 : 0 < u.loan_amount) (hf : u.loan_interest_frozen = false)
    (helapsed : 3600 ≤ t1 - u.last_loan_interest_time)
    (horder : t1 ≤ t2) (hwithin : t2 - t1 ≤ 3599) :
    (update_loan_interest cfg t1 u).1.last_loan_interest_time = t1 ∧
    u.last_loan_interest_time ≤ (update_loan_interest cfg t1 u).1.last_loan_interest_time ∧
    (update_loan_interest cfg t2 (update_loan_interest cfg t1 u).1).2 = 0 ∧
    (update_loan_interest cfg t2 (update_loan_interest cfg t1 u).1).1.loan_amount
      = (update_loan_interest cfg t1 u).1.loan_amount := by
  have h3600 : (0 : Int) ≤ 3600 := by norm_num
  have hh1 : 1 ≤ Int.fdiv (t1 - u.last_loan_interest_time) 3600 := by
    rw [Int.fdiv_eq_ediv _ h3600]
    omega
  obtain ⟨L, hL, hle⟩ :=
    update_loan_interest_active_shape cfg t1 u (by omega) hf hh1
  have hlast : (update_loan_interest cfg t1 u).1.last_loan_interest_time = t1 := by
    rw [hL]
  have hloan1 : (update_loan_interest cfg t1 u).1.loan_amount = L := by
    rw [hL]
  have hfrozen1 : (update_loan_interest cfg t1 u).1.loan_interest_frozen = false := by
    rw [hL]
    exact hf
  have hh2 : ¬ 1 ≤ Int.fdiv
      (t2 - (update_loan_interest cfg t1 u).1.last_loan_interest_time) 3600 := by
    rw [hlast, Int.fdiv_eq_ediv _ h3600]
    omega
  have hnoop := update_loan_interest_idle cfg t2 (update_loan_interest cfg t1 u).1
    (by omega) hfrozen1 hh2
  refine ⟨hlast, by omega, ?_, ?_⟩
  · rw [hnoop]
  · rw [hnoop]

/-- Witness for the amended C4 theorem at a concrete input: first call
at t₁ = 3600 (one hour after the watermark), second at t₂ = 7199. -/
theorem accrual_idempotent_within_hour_witness :
    (update_loan_interest {} 3600 c4ActiveAccount).1.last_loan_interest_time = 3600 ∧
    c4ActiveAccount.last_loan_interest_time ≤
      (update_loan_interest {} 3600 c4ActiveAccount).1.last_loan_interest_time ∧
    (update_loan_interest {} 7199 (update_loan_interest {} 3600 c4ActiveAccount).1).2 = 0 ∧
    (update_loan_interest {} 7199
        (update_loan_interest {} 3600 c4ActiveAccount).1).1.loan_amount
      = (update_loan_interest {} 3600 c4ActiveAccount).1.loan_amount :=
  accrual_idempotent_within_hour {} c4ActiveAccount 3600 7199
    (by decide) (by decide) (by decide) (by decide) (by decide)

/-- Pet-sale loop of liquidation step 3 (src/main.py:1125): pets are
sold one at a time at 80% of their value (`int(value * 0.8)`, with
`0.8 = 4/5` exactly) until accumulated income covers the remaining debt
or pets run out.  Returns (income, unsold pets). -/
def sellPets (need : Int) : Int → List Int → Int × List Int
  | income, [] => (income, [])
  | income, v :: rest =>
    if need ≤ income then (income, v :: rest)
    else sellPets need (income + pyInt ((v : ℚ) * (4/5))) rest

/-- Liquidation step 1 (src/main.py:1093): seize cash above the fixed
1000-coin safety floor, capped at the debt.  Returns (account, seized). -/
def liqSeizeCash (loan : Int) (u : Account) : Account × Int :=
  if 1000 < u.coins then
    let actualDeduct := min (u.coins - 1000) loan
    if 0 < actualDeduct then ({ u with coins := u.coins - actualDeduct }, actualDeduct)
    else (u, 0)
  else (u, 0)

/-- Liquidation step 2 (src/main.py:1107): seize bank balance, capped at
the remaining debt.  Returns (account, accumulated repayment). -/
def liqSeizeBank (loan totalRepay : Int) (u : Account) : Account × Int :=
  if 0 < loan - totalRepay then
    if 0 < u.bank then
      let deduct := min u.bank (loan - totalRepay)
      ({ u with bank := u.bank - deduct }, totalRepay + deduct)
    else (u, totalRepay)
  else (u, totalRepay)

/-- Liquidation step 3 (src/main.py:1117): sell pets at 80% of value
until the remaining debt is covered.  Returns (account, accumulated
repayment). -/
def liqSellPets (loan totalRepay : Int) (u : Account) : Account × Int :=
  if 0 < loan - totalRepay then
    if u.pets ≠ [] then
      let r := sellPets (loan - totalRepay) 0 u.pets
      ({ u with pets := r.2 }, totalRepay + r.1)
    else (u, totalRepay)
  else (u, totalRepay)

/-- Shallow embedding of `Main._check_and_liquidate` (src/main.py:1062).
Returns (liquidation ran?, new account state, enqueued clawback tasks);
the human-readable notification is dropped and `uid` (the debtor's id)
only labels the enqueued tasks.  The source clears `loan_transfers` and
enqueues tasks only when the list is nonempty, which coincides with the
unconditional form used here. -/
def check_and_liquidate (cfg : Config) (uid : Nat) (u : Account) :
    Bool × Account × List DebtTask :=
  let principal := u.loan_principal
  let loan := u.loan_amount
  let multiplier := cfg.loan_interest_max_multiplier
  if multiplier ≤ 0 ∨ loan ≤ 0 then (false, u, [])
  else if u.loan_interest_frozen then (false, u, [])
  else if loan < pyInt ((principal : ℚ) * (1 + multiplier)) then (false, u, [])
  else
    let s1 := liqSeizeCash loan u
    let s2 := liqSeizeBank loan s1.2 s1.1
    let s3 := liqSellPets loan s2.2 s2.1
    let loanAfter := max 0 (loan - s3.2)
    let u4 := { s3.1 with loan_amount := loanAfter }
    if 0 < loanAfter then
      let tasks := u4.loan_transfers.map fun r => DebtTask.mk uid r.target r.amount
      let u5 := { u4 with loan_transfers := [], loan_interest_frozen := true }
      (true, if u5.coins < INITIAL_COINS then { u5 with coins := INITIAL_COINS } else u5,
       tasks)
    else
      let u5 := { u4 with loan_principal := 0, loan_interest_frozen := false }
      let remainingCash := |loan - s3.2|
      let u6 := if 0 < remainingCash then { u5 with coins := u5.coins + remainingCash } else u5
      (true, if u6.coins < INITIAL_COINS then { u6 with coins := INITIAL_COINS } else u6, [])

/-- Selling pets with nonnegative values never shrinks the accumulated
income (shared helper). -/
theorem sellPets_le (need : Int) (pets : List Int) :
    ∀ income, (∀ v ∈ pets, 0 ≤ v) → income ≤ (sellPets need income pets).1 := by
  induction pets with
  | nil => intro income _; simp [sellPets]
  | cons v rest ih =>
    intro income h
    rw [sellPets]
    split
    · exact le_refl _
    · have hv : (0 : ℚ) ≤ (v : ℚ) * (4/5) := by
        have : (0 : Int) ≤ v := h v (by simp)
        have : (0 : ℚ) ≤ (v : ℚ) := by exact_mod_cast this
        linarith
      have hnn := pyInt_nonneg _ hv
      have step : income ≤ income + pyInt ((v : ℚ) * (4/5)) := by omega
      exact step.trans (ih _ fun w hw => h w (by simp [hw]))

/-- Step 1 seizes a nonnegative amount out of cash and touches nothing
else (shared helper). -/
theorem liqSeizeCash_spec (loan : Int) (u : Account) :
    0 ≤ (liqSeizeCash loan u).2 ∧
    (liqSeizeCash loan u).1.bank = u.bank ∧
    (liqSeizeCash loan u).1.pets = u.pets ∧
    (liqSeizeCash loan u).1.loan_transfers = u.loan_transfers := by
  simp only [liqSeizeCash]
  split_ifs <;> refine ⟨?_, rfl, rfl, rfl⟩ <;> omega

/-- Step 2 never shrinks the accumulated repayment and touches only the
bank balance (shared helper). -/
theorem liqSeizeBank_spec (loan totalRepay : Int) (u : Account) :
    totalRepay ≤ (liqSeizeBank loan totalRepay u).2 ∧
    (liqSeizeBank loan totalRepay u).1.coins = u.coins ∧
    (liqSeizeBank loan totalRepay u).1.pets = u.pets ∧
    (liqSeizeBank loan totalRepay u).1.loan_transfers = u.loan_transfers := by
  simp only [liqSeizeBank]
  split_ifs <;> refine ⟨?_, rfl, rfl, rfl⟩ <;> omega

/-- Step 3 never shrinks the accumulated repayment when pet values are
nonnegative, and touches only the pet list (shared helper). -/
theorem liqSellPets_spec (loan totalRepay : Int) (u : Account)
    (hp : ∀ v ∈ u.pets, 0 ≤ v) :
    totalRepay ≤ (liqSellPets loan totalRepay u).2 ∧
    (liqSellPets loan totalRepay u).1.coins = u.coins ∧
    (liqSellPets loan totalRepay u).1.bank = u.bank ∧
    (liqSellPets loan totalRepay u).1.loan_transfers = u.loan_transfers := by
  simp only [liqSellPets]
  split_ifs <;> refine ⟨?_, rfl, rfl, rfl⟩ <;> try omega
  have := sellPets_le (loan - totalRepay) u.pets 0 hp
  omega

/-- A liquidation check that does not run leaves the account and the
queue untouched (shared helper). -/
theorem check_and_liquidate_not_ran (cfg : Config) (uid : Nat) (u : Account)
    (h : (check_and_liquidate cfg uid u).1 = false) :
    check_and_liquidate cfg uid u = (false, u, []) := by
  simp only [check_and_liquidate] at h ⊢
  split_ifs at h ⊢ <;> rfl

/-- Liquidation preserves the zero-loan invariant (shared helper). -/
theorem check_and_liquidate_invariant (cfg : Config) (uid : Nat) (u : Account)
    (hu : LoanInvariant u) :
    LoanInvariant (check_and_liquidate cfg uid u).2.1 := by
  simp only [check_and_liquidate]
  split_ifs with h1 h2 h3 h4 <;> try exact hu
  all_goals intro hz
  all_goals first
    | exact ⟨rfl, rfl⟩
    | exact absurd hz (by dsimp only; omega)

/-- C3: whenever liquidation runs on an account (with nonnegative pet
values), the resulting `loan_amount` is at most the pre-liquidation one,
and after the welfare top-up cash is at least the subsistence floor
`INITIAL_COINS`. -/
theorem liquidation_monotone (cfg : Config) (uid : Nat) (u : Account)
    (hpets : ∀ v ∈ u.pets, 0 ≤ v)
    (hran : (check_and_liquidate cfg uid u).1 = true) :
    (check_and_liquidate cfg uid u).2.1.loan_amount ≤ u.loan_amount ∧
    INITIAL_COINS ≤ (check_and_liquidate cfg uid u).2.1.coins := by
  have H1 := liqSeizeCash_spec u.loan_amount u
  have H2 := liqSeizeBank_spec u.loan_amount (liqSeizeCash u.loan_amount u).2
      (liqSeizeCash u.loan_amount u).1
  have hp2 : ∀ v ∈ (liqSeizeBank u.loan_amount (liqSeizeCash u.loan_amount u).2
      (liqSeizeCash u.loan_amount u).1).1.pets, 0 ≤ v := by
    rw [H2.2.2.1, H1.2.2.1]; exact hpets
  have H3 := liqSellPets_spec u.loan_amount
      (liqSeizeBank u.loan_amount (liqSeizeCash u.loan_amount u).2
        (liqSeizeCash u.loan_amount u).1).2
      (liqSeizeBank u.loan_amount (liqSeizeCash u.loan_amount u).2
        (liqSeizeCash u.loan_amount u).1).1 hp2
  have hA : 0 ≤ (liqSeizeCash u.loan_amount u).2 := H1.1
  have hB := H2.1
  have hC := H3.1
  simp only [check_and_liquidate] at hran ⊢
  split_ifs at hran ⊢ with h1 h2 h3 h4
  all_goals
    have hloan : 0 < u.loan_amount := by
      rcases not_or.mp h1 with ⟨-, hl⟩
      exact not_le.mp hl
  all_goals dsimp only
  all_goals refine ⟨by omega, ?_⟩
  all_goals first
    | exact le_refl INITIAL_COINS
    | (rename_i h; exact not_lt.mp h)

/-- Scenario account of C2: principal 1000, debt driven to 2000 by
interest, 500 cash and 300 bank. -/
def liqAccount : Account :=
  { coins := 500, bank := 300, loan_amount := 2000, loan_principal := 1000 }

/-- C2 counterexample: on the scenario account the liquidation check does
trigger (2000 ≥ 2·1000), but the 500 cash sits entirely below the fixed
1000-coin safety floor, so only the 300 bank coins are seized: the
remaining debt is 1700, not the claimed 1200, and cash stays at 500. -/
theorem liquidation_scenario_counterexample :
    (check_and_liquidate {} 1 liqAccount).1 = true ∧
    (check_and_liquidate {} 1 liqAccount).2.1.loan_amount = 1700 ∧
    ¬ (check_and_liquidate {} 1 liqAccount).2.1.loan_amount = 1200 ∧
    (check_and_liquidate {} 1 liqAccount).2.1.coins = 500 ∧
    (check_and_liquidate {} 1 liqAccount).2.1.bank = 0 := by
  simp only [check_and_liquidate, liqSeizeCash, liqSeizeBank, liqSellPets,
    liqAccount, INITIAL_COINS]
  norm_num [pyInt]

/-- C2 (amended): on the scenario account liquidation triggers and seizes
only the bank balance (300): cash is 500, below the 1000-coin safety
floor, so nothing is taken from it; the account ends with
`loan_amount = 1700`, frozen interest, and no welfare top-up (500 is
already above the 150-coin subsistence floor). -/
theorem liquidation_scenario :
    check_and_liquidate {} 1 liqAccount =
      (true,
       { liqAccount with bank := 0, loan_amount := 1700, loan_interest_frozen := true },
       []) := by
  simp only [check_and_liquidate, liqSeizeCash, liqSeizeBank, liqSellPets,
    liqAccount, INITIAL_COINS]
  norm_num [pyInt]

/-- Witness for C3 at a concrete input: the scenario account, on which
liquidation runs, 1700 ≤ 2000 and 500 ≥ 150. -/
theorem liquidation_monotone_witness :
    (check_and_liquidate {} 1 liqAccount).2.1.loan_amount ≤ liqAccount.loan_amount ∧
    INITIAL_COINS ≤ (check_and_liquidate {} 1 liqAccount).2.1.coins :=
  liquidation_monotone {} 1 liqAccount (by simp [liqAccount])
    (by simp only [check_and_liquidate, liqSeizeCash, liqSeizeBank, liqSellPets,
          liqAccount, INITIAL_COINS]
        norm_num [pyInt])

/-- Outcome of the `/贷款` (take loan) command path that touches the
ledger. -/
inductive LoanResult
  | liquidated
  | rejectedLimit
  | success
  deriving DecidableEq

/-- Outcome of the `/还款` (repay loan) command path that touches the
ledger. -/
inductive RepayResult
  | liquidated
  | noDebt
  | invalidAmount
  | insufficient
  | success
  deriving DecidableEq

/-- Shallow embedding of the ledger part of `Main.take_loan`
(src/main.py:2300): settle interest, run the liquidation check, check
the per-bank-level credit limit, then draw the loan.  Returns
(outcome, account, enqueued clawback tasks). -/
def take_loan (cfg : Config) (now : Int) (uid : Nat) (amount : Int) (u : Account) :
    LoanResult × Account × List DebtTask :=
  let u1 := (update_loan_interest cfg now u).1
  let r := check_and_liquidate cfg uid u1
  if r.1 then (.liquidated, r.2.1, r.2.2)
  else
    let u2 := r.2.1
    let limit := u2.bank_level * cfg.loan_limit_per_level
    let currentLoan := u2.loan_amount
    if limit < currentLoan + amount then (.rejectedLimit, u2, [])
    else
      (.success,
       { u2 with loan_amount := currentLoan + amount, coins := u2.coins + amount,
                 loan_principal := u2.loan_principal + amount }, [])

/-- Shallow embedding of the ledger part of `Main.repay_loan`
(src/main.py:2344): settle interest, run the liquidation check, then
repay `min(requested, current loan)` (all of it when no amount is
given), repaying interest before principal and clearing the debt state
on full repayment. -/
def repay_loan (cfg : Config) (now : Int) (uid : Nat) (amount : Option Int)
    (u : Account) : RepayResult × Account × List DebtTask :=
  let u1 := (update_loan_interest cfg now u).1
  let r := check_and_liquidate cfg uid u1
  if r.1 then (.liquidated, r.2.1, r.2.2)
  else
    let u2 := r.2.1
    let currentLoan := u2.loan_amount
    let principal := u2.loan_principal
    if currentLoan ≤ 0 then
      (.noDebt, { u2 with loan_principal := 0, loan_interest_frozen := false }, [])
    else
      let targetAmount := amount.getD currentLoan
      if targetAmount ≤ 0 then (.invalidAmount, u2, [])
      else
        let realRepay := min targetAmount currentLoan
        if u2.coins < realRepay then (.insufficient, u2, [])
        else
          let u3 := { u2 with coins := u2.coins - realRepay,
                              loan_amount := currentLoan - realRepay }
          let u4 := if u3.loan_amount < principal
                    then { u3 with loan_principal := u3.loan_amount } else u3
          let u5 := if u4.loan_amount ≤ 0
                    then { u4 with loan_amount := 0, loan_principal := 0,
                                   loan_interest_frozen := false, loan_transfers := [] }
                    else u4
          (.success, u5, [])

/-- Processing of one clawback task inside `Main._process_debt_queue`
(src/main.py:341-391): re-read the debtor's remaining loan, cap the
recovery at `min(task.amount, debt)`, deduct from the target's cash
first and then from the target's bank, and reduce the debtor's loan by
each amount deducted.  A task finding no remaining debt is skipped.
Notification strings and the dirty-flag save are dropped; debtor and
target are distinct accounts (the transfer command forbids
self-transfers, so no task aliases them). -/
def process_debt_task (task : DebtTask) (debtor target : Account) : Account × Account :=
  let debt := debtor.loan_amount
  if debt ≤ 0 then (debtor, target)
  else
    let maxClawback := min task.amount debt
    let deductCoins := min target.coins maxClawback
    let target1 := { target with coins := target.coins - deductCoins }
    let debtor1 := { debtor with loan_amount := debtor.loan_amount - deductCoins }
    let remainingNeed := maxClawback - deductCoins
    if 0 < remainingNeed then
      let deductBank := min target1.bank remainingNeed
      if 0 < deductBank then
        ({ debtor1 with loan_amount := debtor1.loan_amount - deductBank },
         { target1 with bank := target1.bank - deductBank })
      else (debtor1, target1)
    else (debtor1, target1)

/-- One queue-drain update of the account store (entity id → account):
process the task against the debtor's and target's current records and
write both back. -/
def apply_debt_task (st : Nat → Account) (task : DebtTask) : Nat → Account :=
  let r := process_debt_task task (st task.debtor) (st task.target)
  fun i => if i = task.target then r.2 else if i = task.debtor then r.1 else st i

/-- Shallow embedding of the drain in `Main._process_debt_queue`
(src/main.py:332-394): `tasks = self.debt_queue[:]; self.debt_queue = []`,
then each drained task is processed exactly once and never re-enqueued.
Returns (queue after the drain, updated store). -/
def process_debt_queue (queue : List DebtTask) (st : Nat → Account) :
    List DebtTask × (Nat → Account) :=
  ([], queue.foldl apply_debt_task st)

/-- C1 counterexample: a clawback that recovers the whole remaining debt
leaves the debtor with `loan_amount = 0` but a stale
`loan_principal = 1000` and `loan_interest_frozen = true` —
`_process_debt_queue` never clears them, violating the invariant right
after that mutation (it is only repaired lazily by the next
interest-accrual call). -/
def c1Debtor : Account :=
  { loan_amount := 1200, loan_principal := 1000, loan_interest_frozen := true }

/-- Target holding enough cash to cover the whole debt of `c1Debtor`. -/
def c1Target : Account := { coins := 2000 }

theorem clawback_breaks_zero_loan_invariant :
    (process_debt_task ⟨1, 2, 1200⟩ c1Debtor c1Target).1.loan_amount = 0 ∧
    (process_debt_task ⟨1, 2, 1200⟩ c1Debtor c1Target).1.loan_principal = 1000 ∧
    (process_debt_task ⟨1, 2, 1200⟩ c1Debtor c1Target).1.loan_interest_frozen = true ∧
    ¬ LoanInvariant (process_debt_task ⟨1, 2, 1200⟩ c1Debtor c1Target).1 := by
  decide

/-- C1 (amended): the zero-loan invariant
`loan_amount = 0 → loan_principal = 0 ∧ ¬loan_interest_frozen` holds
after interest accrual (unconditionally), after liquidation (when it
held before), after a loan draw (positive amount, nonnegative starting
debt) and after a repayment — but not after clawback processing, which
can leave a stale principal and frozen flag (see the counterexample). -/
theorem loan_invariant_after_mutations (cfg : Config) (now : Int) (uid : Nat)
    (amt : Int) (amtO : Option Int) (u : Account) :
    LoanInvariant (update_loan_interest cfg now u).1 ∧
    (LoanInvariant u → LoanInvariant (check_and_liquidate cfg uid u).2.1) ∧
    (0 ≤ u.loan_amount → 0 < amt → LoanInvariant (take_loan cfg now uid amt u).2.1) ∧
    LoanInvariant (repay_loan cfg now uid amtO u).2.1 := by
  refine ⟨update_loan_interest_invariant cfg now u,
          check_and_liquidate_invariant cfg uid u, ?_, ?_⟩
  · intro hnn hamt
    simp only [take_loan]
    by_cases hr : (check_and_liquidate cfg uid (update_loan_interest cfg now u).1).1 = true
    · rw [if_pos hr]
      exact check_and_liquidate_invariant cfg uid _ (update_loan_interest_invariant cfg now u)
    · rw [if_neg hr]
      have hid := check_and_liquidate_not_ran cfg uid (update_loan_interest cfg now u).1
        (by simpa using hr)
      rw [hid]
      dsimp only
      split_ifs with hl
      · exact update_loan_interest_invariant cfg now u
      · intro hz
        have hle := update_loan_interest_loan_le cfg now u
        have hz' : (update_loan_interest cfg now u).1.loan_amount + amt = 0 := hz
        exact absurd hz' (by omega)
  · simp only [repay_loan]
    by_cases hr : (check_and_liquidate cfg uid (update_loan_interest cfg now u).1).1 = true
    · rw [if_pos hr]
      exact check_and_liquidate_invariant cfg uid _ (update_loan_interest_invariant cfg now u)
    · rw [if_neg hr]
      have hid := check_and_liquidate_not_ran cfg uid (update_loan_interest cfg now u).1
        (by simpa using hr)
      rw [hid]
      dsimp only
      split_ifs
      all_goals first
        | exact update_loan_interest_invariant cfg now u
        | (intro hz; exact ⟨rfl, rfl⟩)
        | (intro hz; exfalso; rename_i hpos; dsimp only at hz hpos; omega)

/-- Witness for the amended C1 theorem at a concrete account. -/
theorem loan_invariant_after_mutations_witness :
    LoanInvariant (update_loan_interest {} 3600 c4ActiveAccount).1 ∧
    LoanInvariant (check_and_liquidate {} 1 c4ActiveAccount).2.1 ∧
    LoanInvariant (take_loan {} 3600 1 500 c4ActiveAccount).2.1 ∧
    LoanInvariant (repay_loan {} 3600 1 (some 100) c4ActiveAccount).2.1 :=
  have H := loan_invariant_after_mutations {} 3600 1 500 (some 100) c4ActiveAccount
  ⟨H.1, H.2.1 (by decide), H.2.2.1 (by decide) (by decide), H.2.2.2⟩

/-- State of `take_loan` upon a credit-limit rejection: exactly the
state left by the pre-validation interest accrual (shared helper). -/
theorem take_loan_rejected_state (cfg : Config) (now : Int) (uid : Nat)
    (amt : Int) (u : Account)
    (h : (take_loan cfg now uid amt u).1 = .rejectedLimit) :
    (take_loan cfg now uid amt u).2.1 = (update_loan_interest cfg now u).1 := by
  simp only [take_loan] at h ⊢
  by_cases hr : (check_and_liquidate cfg uid (update_loan_interest cfg now u).1).1 = true
  · rw [if_pos hr] at h
    simp at h
  · rw [if_neg hr] at h ⊢
    have hid := check_and_liquidate_not_ran cfg uid (update_loan_interest cfg now u).1
      (by simpa using hr)
    rw [hid] at h ⊢
    dsimp only at h ⊢
    split_ifs at h ⊢ <;> rfl

/-- State of `repay_loan` upon an insufficient-balance rejection:
exactly the state left by the pre-validation interest accrual (shared
helper). -/
theorem repay_loan_insufficient_state (cfg : Config) (now : Int) (uid : Nat)
    (amtO : Option Int) (u : Account)
    (h : (repay_loan cfg now uid amtO u).1 = .insufficient) :
    (repay_loan cfg now uid amtO u).2.1 = (update_loan_interest cfg now u).1 := by
  simp only [repay_loan] at h ⊢
  by_cases hr : (check_and_liquidate cfg uid (update_loan_interest cfg now u).1).1 = true
  · rw [if_pos hr] at h
    simp at h
  · rw [if_neg hr] at h ⊢
    have hid := check_and_liquidate_not_ran cfg uid (update_loan_interest cfg now u).1
      (by simpa using hr)
    rw [hid] at h ⊢
    dsimp only at h ⊢
    split_ifs at h ⊢ <;> rfl

/-- C5 (amended): a loan request rejected for exceeding the credit limit
and a repayment rejected for insufficient balance perform no mutation of
their own — the state returned is exactly the one left by the interest
accrual (and liquidation check) that run before validation.  The claim's
stronger reading — state identical to the pre-command state — is refuted
by the counterexample, since that preceding accrual can itself mutate
the account. -/
theorem validation_rejection_state (cfg : Config) (now : Int) (uid : Nat)
    (amt : Int) (amtO : Option Int) (u : Account) :
    ((take_loan cfg now uid amt u).1 = .rejectedLimit →
      (take_loan cfg now uid amt u).2.1 = (update_loan_interest cfg now u).1) ∧
    ((repay_loan cfg now uid amtO u).1 = .insufficient →
      (repay_loan cfg now uid amtO u).2.1 = (update_loan_interest cfg now u).1) :=
  ⟨take_loan_rejected_state cfg now uid amt u,
   repay_loan_insufficient_state cfg now uid amtO u⟩

/-- Account of the C5 theorems: an active 1000-coin loan one hour old,
so that any ledger-touching command first accrues 50 coins of
interest. -/
def c5Account : Account :=
  { coins := 0, loan_amount := 1000, loan_principal := 1000,
    last_loan_interest_time := 0 }

/-- C5 counterexample: a loan request over the credit limit is rejected,
yet the account state after the command differs from the state before
it — the pre-validation interest accrual raised `loan_amount` from 1000
to 1050 (and advanced the watermark), contradicting "no state
mutation". -/
theorem rejected_loan_mutates_state :
    (take_loan {} 3600 0 4500 c5Account).1 = .rejectedLimit ∧
    (take_loan {} 3600 0 4500 c5Account).2.1 ≠ c5Account ∧
    (take_loan {} 3600 0 4500 c5Account).2.1.loan_amount = 1050 := by
  simp only [take_loan, update_loan_interest, check_and_liquidate, liqSeizeCash,
    liqSeizeBank, liqSellPets, c5Account, fdiv_3600, INITIAL_COINS]
  norm_num [pyInt]

/-- Witness for the amended C5 theorem: both rejections fire on
`c5Account` and return exactly the post-accrual state. -/
theorem validation_rejection_state_witness :
    ((take_loan {} 3600 0 4500 c5Account).2.1 = (update_loan_interest {} 3600 c5Account).1) ∧
    ((repay_loan {} 3600 0 (some 500) c5Account).2.1
      = (update_loan_interest {} 3600 c5Account).1) :=
  ⟨(validation_rejection_state {} 3600 0 4500 (some 500) c5Account).1
    (by simp only [take_loan, update_loan_interest, check_and_liquidate, liqSeizeCash,
          liqSeizeBank, liqSellPets, c5Account, fdiv_3600, INITIAL_COINS]
        norm_num [pyInt]),
   (validation_rejection_state {} 3600 0 4500 (some 500) c5Account).2
    (by simp only [repay_loan, update_loan_interest, check_and_liquidate, liqSeizeCash,
          liqSeizeBank, liqSellPets, c5Account, fdiv_3600, INITIAL_COINS]
        norm_num [pyInt])⟩

/-- C7: for every drained clawback task — (a) a task finding no
remaining debt changes no state; (b) the amount recovered is at most
`min(task cap, debtor's current loan)`; (c) the debtor's loan drops by
exactly the total taken from the target, which comes out of cash first:
the bank is touched only once cash is fully drained; (d) the drain
leaves the queue empty, so no task is ever re-enqueued. -/
theorem clawback_task_spec (task : DebtTask) (d t : Account)
    (q : List DebtTask) (st : Nat → Account) :
    (d.loan_amount ≤ 0 → process_debt_task task d t = (d, t)) ∧
    (0 < d.loan_amount →
      d.loan_amount - (process_debt_task task d t).1.loan_amount
        ≤ min task.amount d.loan_amount) ∧
    (d.loan_amount - (process_debt_task task d t).1.loan_amount
      = (t.coins - (process_debt_task task d t).2.coins)
        + (t.bank - (process_debt_task task d t).2.bank)) ∧
    (0 < t.bank - (process_debt_task task d t).2.bank →
      (process_debt_task task d t).2.coins = 0) ∧
    (process_debt_queue q st).1 = [] := by
  refine ⟨?_, ?_, ?_, ?_, rfl⟩
  · intro h
    simp only [process_debt_task]
    rw [if_pos h]
  · intro h
    simp only [process_debt_task]
    rw [if_neg (not_le.mpr h)]
    split_ifs <;> dsimp only <;> omega
  · simp only [process_debt_task]
    split_ifs <;> dsimp only <;> omega
  · simp only [process_debt_task]
    split_ifs <;> dsimp only <;> intro h <;> omega

/-- Debtor of the C7 witness: 1000 coins of remaining debt. -/
def c7Debtor : Account := { loan_amount := 1000, loan_principal := 800 }

/-- Target of the C7 witness: 200 cash and 500 bank. -/
def c7Target : Account := { coins := 200, bank := 500 }

/-- Task of the C7 witness: a 600-coin cap. -/
def c7Task : DebtTask := ⟨1, 2, 600⟩

/-- Store of the C7 witness queue drain. -/
def c7Store : Nat → Account :=
  fun i => if i = 1 then c7Debtor else if i = 2 then c7Target else {}

/-- Witness for C7 at a concrete input: recovering 600 = 200 cash + 400
bank out of a 1000-coin debt, and a drained singleton queue. -/
theorem clawback_task_spec_witness :
    (0 < c7Debtor.loan_amount ∧
      c7Debtor.loan_amount - (process_debt_task c7Task c7Debtor c7Target).1.loan_amount
        ≤ min c7Task.amount c7Debtor.loan_amount) ∧
    (c7Debtor.loan_amount - (process_debt_task c7Task c7Debtor c7Target).1.loan_amount
      = (c7Target.coins - (process_debt_task c7Task c7Debtor c7Target).2.coins)
        + (c7Target.bank - (process_debt_task c7Task c7Debtor c7Target).2.bank)) ∧
    (process_debt_queue [c7Task] c7Store).1 = [] :=
  ⟨⟨by decide,
    (clawback_task_spec c7Task c7Debtor c7Target [c7Task] c7Store).2.1 (by decide)⟩,
   (clawback_task_spec c7Task c7Debtor c7Target [c7Task] c7Store).2.2.1,
   (clawback_task_spec c7Task c7Debtor c7Target [c7Task] c7Store).2.2.2.2⟩

/-- Outcome of the `/转账` (transfer) command path that touches the
ledger (jail checks are display-layer and omitted). -/
inductive TransferResult
  | invalidAmount
  | selfTarget
  | belowMin
  | cooldown
  | insufficient
  | success
  deriving DecidableEq

/-- Shallow embedding of `Main.transfer` (src/main.py:2404-2517):
validations (positive amount, distinct target, configured minimum,
transfer cooldown), fee `int(amount * fee_rate)` on top of the amount,
then the balance movements; a sender still in debt gets the transfer
recorded in `loan_transfers` for later clawback.  The 20-entry
transfer_history display list is omitted. -/
def transfer (cfg : Config) (now : Int) (uid tid : Nat) (amount : Int)
    (sender receiver : Account) : TransferResult × Account × Account :=
  if amount ≤ 0 then (.invalidAmount, sender, receiver)
  else if tid = uid then (.selfTarget, sender, receiver)
  else if amount < cfg.transfer_min_amount then (.belowMin, sender, receiver)
  else if now - sender.transfer_cooldown < cfg.transfer_cooldown then
    (.cooldown, sender, receiver)
  else
    let fee := pyInt ((amount : ℚ) * cfg.transfer_fee_rate)
    let totalCost := amount + fee
    if sender.coins < totalCost then (.insufficient, sender, receiver)
    else
      let sender1 := { sender with coins := sender.coins - totalCost,
                                   transfer_cooldown := now }
      let receiver1 := { receiver with coins := receiver.coins + amount }
      let sender2 :=
        if 0 < sender1.loan_amount then
          { sender1 with loan_transfers := sender1.loan_transfers ++ [⟨tid, amount⟩] }
        else sender1
      (.success, sender2, receiver1)

/-- C9: a successful transfer of `amount` credits the receiver with
exactly `amount`, debits the sender by `amount` plus the fee
`int(amount × fee_rate)`, and — the fee being credited to nobody — the
combined coins of the two parties drop by exactly the fee. -/
theorem transfer_conservation (cfg : Config) (now : Int) (uid tid : Nat)
    (amount : Int) (sender receiver : Account)
    (h : (transfer cfg now uid tid amount sender receiver).1 = .success) :
    (transfer cfg now uid tid amount sender receiver).2.2.coins
      = receiver.coins + amount ∧
    (transfer cfg now uid tid amount sender receiver).2.1.coins
      = sender.coins - (amount + pyInt ((amount : ℚ) * cfg.transfer_fee_rate)) ∧
    (transfer cfg now uid tid amount sender receiver).2.1.coins
        + (transfer cfg now uid tid amount sender receiver).2.2.coins
      = sender.coins + receiver.coins
        - pyInt ((amount : ℚ) * cfg.transfer_fee_rate) := by
  simp only [transfer] at h ⊢
  split_ifs at h ⊢
  all_goals first
    | (refine ⟨rfl, rfl, by dsimp only; ring⟩)
    | (exfalso; simp at h)

/-- Parties of the C9 witness. -/
def c9Sender : Account := { coins := 500 }

/-- Receiving party of the C9 witness. -/
def c9Receiver : Account := { coins := 50 }

/-- Witness for C9 at a concrete input: a 100-coin transfer with the
default 10% fee moves 100 to the receiver and 110 out of the sender. -/
theorem transfer_conservation_witness :
    (transfer {} 2000 1 2 100 c9Sender c9Receiver).2.2.coins
      = c9Receiver.coins + 100 ∧
    (transfer {} 2000 1 2 100 c9Sender c9Receiver).2.1.coins
      = c9Sender.coins - (100 + pyInt ((100 : ℚ) * ({} : Config).transfer_fee_rate)) ∧
    (transfer {} 2000 1 2 100 c9Sender c9Receiver).2.1.coins
        + (transfer {} 2000 1 2 100 c9Sender c9Receiver).2.2.coins
      = c9Sender.coins + c9Receiver.coins
        - pyInt ((100 : ℚ) * ({} : Config).transfer_fee_rate) :=
  transfer_conservation {} 2000 1 2 100 c9Sender c9Receiver
    (by simp only [transfer, c9Sender, c9Receiver]
        norm_num [pyInt])

/-- Exact round-half-to-even on rationals, the tie-breaking rule of
Python's `round`. -/
def roundHalfEven (q : ℚ) : Int :=
  let f := ⌊q⌋
  let r := q - f
  if r < 1/2 then f
  else if 1/2 < r then f + 1
  else if f % 2 = 0 then f else f + 1

/-- Half-even rounding never goes below the floor (shared helper). -/
theorem floor_le_roundHalfEven (q : ℚ) : ⌊q⌋ ≤ roundHalfEven q := by
  unfold roundHalfEven
  dsimp only
  split_ifs <;> omega

/-- Python's `round(x, 4)`, modelled exactly at four decimal places. -/
def round4 (q : ℚ) : ℚ := (roundHalfEven (q * 10000) : ℚ) / 10000

/-- Rounding at four decimals preserves the 0.01 price floor (shared
helper). -/
theorem le_round4 (q : ℚ) (h : 1/100 ≤ q) : 1/100 ≤ round4 q := by
  have h1 : (100 : Int) ≤ ⌊q * 10000⌋ := by
    rw [Int.le_floor]
    push_cast
    linarith
  have h2 : (100 : Int) ≤ roundHalfEven (q * 10000) :=
    le_trans h1 (floor_le_roundHalfEven _)
  have h3 : ((100 : Int) : ℚ) ≤ (roundHalfEven (q * 10000) : ℚ) := by exact_mod_cast h2
  rw [round4, le_div_iff (by norm_num : (0 : ℚ) < 10000)]
  push_cast at h3 ⊢
  linarith

/-- One market instrument's mutable state (`market_data["instruments"]`
entry); the immutable reference data (base price, volatility, drift)
are passed as parameters. -/
structure Instrument where
  current_price : ℚ
  price_history : List ℚ
  change_24h : ℚ
  deriving DecidableEq

/-- The percentage change one tick applies: drift plus the scaled
standard-normal shock `g * volatility`, clamped to `±2·volatility`
(src/main.py:176-186).  `g` is the draw `random.gauss(0, 1)`. -/
def appliedChange (volatility drift g : ℚ) : ℚ :=
  max (min (drift + g * volatility) (volatility * 2)) (-(volatility * 2))

/-- One tick of `MarketManager.update_market` for a single instrument
(src/main.py:163-201): apply the clamped change multiplicatively, floor
the price at 0.01, round to 4 decimals, append to the history buffer
capped at 30 (dropping the oldest), and recompute `change_24h` from the
unrounded new price against the (post-cap) oldest history entry, exactly
as the source does. -/
def update_market (volatility drift g : ℚ) (inst : Instrument) : Instrument :=
  let changePercent := appliedChange volatility drift g
  let newPrice := max (1/100) (inst.current_price * (1 + changePercent))
  let rounded := round4 newPrice
  let history0 := inst.price_history ++ [rounded]
  let history := if 30 < history0.length then history0.drop 1 else history0
  let startPrice := history.headD newPrice
  { current_price := rounded
    price_history := history
    change_24h := (newPrice - startPrice) / startPrice }

/-- C6: after a market tick (nonnegative volatility, history previously
within its cap) the new price is at least 0.01, the applied percentage
change has magnitude at most 2·volatility, and the history buffer holds
at most 30 entries — the new price appended at the end, the oldest entry
dropped first when the buffer was full. -/
theorem market_tick_bounds (vol drift g : ℚ) (inst : Instrument)
    (hvol : 0 ≤ vol) (hlen : inst.price_history.length ≤ 30) :
    1/100 ≤ (update_market vol drift g inst).current_price ∧
    |appliedChange vol drift g| ≤ 2 * vol ∧
    (update_market vol drift g inst).price_history.length ≤ 30 ∧
    (update_market vol drift g inst).price_history =
      (if inst.price_history.length < 30 then inst.price_history
       else inst.price_history.drop 1)
        ++ [(update_market vol drift g inst).current_price] := by
  have habs : |appliedChange vol drift g| ≤ 2 * vol := by
    have hub : appliedChange vol drift g ≤ vol * 2 :=
      max_le (min_le_right _ _) (by linarith)
    have hlb : -(vol * 2) ≤ appliedChange vol drift g := le_max_right _ _
    rw [abs_le]
    constructor <;> linarith
  refine ⟨?_, habs, ?_, ?_⟩
  · exact le_round4 _ (le_max_left _ _)
  · simp only [update_market]
    split_ifs with h <;> simp only [List.length_drop, List.length_append] <;>
      simp at h ⊢ <;> omega
  · simp only [update_market]
    split_ifs with h h2 h2 <;>
      simp only [List.length_append, List.length_singleton] at h <;>
      first
        | omega
        | rfl
        | exact List.drop_append_of_le_length (by omega)

/-- Instrument of the C6 witness: price 1, a one-entry history. -/
def c6Inst : Instrument := { current_price := 1, price_history := [1], change_24h := 0 }

/-- Witness for C6 at a concrete input: volatility 1/10, zero drift and a
zero shock draw. -/
theorem market_tick_bounds_witness :
    1/100 ≤ (update_market (1/10) 0 0 c6Inst).current_price ∧
    |appliedChange (1/10) 0 0| ≤ 2 * (1/10) ∧
    (update_market (1/10) 0 0 c6Inst).price_history.length ≤ 30 ∧
    (update_market (1/10) 0 0 c6Inst).price_history =
      (if c6Inst.price_history.length < 30 then c6Inst.price_history
       else c6Inst.price_history.drop 1)
        ++ [(update_market (1/10) 0 0 c6Inst).current_price] :=
  market_tick_bounds (1/10) 0 0 c6Inst (by norm_num) (by norm_num [c6Inst])

/-- One weighted-average-cost position (`user["holdings"][code]`). -/
structure Holding where
  shares : ℚ
  total_cost : ℚ
  avg_price : ℚ
  deriving DecidableEq

/-- Ledger core of `Main.buy_instrument` (src/main.py:3969-4016) for a
single instrument at `current_price = price`: reject amounts under 100
or beyond the cash balance, deduct the cash, and accumulate shares,
total cost and the weighted-average price.  `holdingsEntry` is the
account's holdings entry for the traded code (`none` when absent); the
one-off legacy-investments migration is not modelled (accounts are
assumed migrated).  Returns `none` on rejection, else
(new cash, new holding). -/
def buy_instrument (price : ℚ) (amount coins : Int) (holdingsEntry : Option Holding) :
    Option (Int × Holding) :=
  if amount < 100 then none
  else if coins < amount then none
  else
    let h0 := holdingsEntry.getD ⟨0, 0, 0⟩
    let shares := h0.shares + (amount : ℚ) / price
    let totalCost := h0.total_cost + (amount : ℚ)
    some (coins - amount, ⟨shares, totalCost, totalCost / shares⟩)

/-- Sell-all path of `Main.sell_instrument` (src/main.py:4073-4105) at
`current_price = price`: proceeds are `int(shares * price)`, the cost
basis `avg_price * shares` is removed from `total_cost`, and the emptied
holding (`shares < 0.0001`) is deleted.  Returns
(new cash, remaining holdings entry). -/
def sell_all_instrument (price : ℚ) (coins : Int) (h : Holding) :
    Int × Option Holding :=
  let sellShares := h.shares
  let sellValue := h.shares * price
  let payout := pyInt sellValue
  let sharesLeft := h.shares - sellShares
  let costBasis := h.avg_price * sellShares
  let totalCostLeft := h.total_cost - costBasis
  (coins + payout,
   if sharesLeft < 1/10000 then none else some ⟨sharesLeft, totalCostLeft, h.avg_price⟩)

/-- C8 counterexample: holding 500 shares at average cost 2
(`total_cost = 1000`), with the market price at 2.5: sell-all pays 1250
and deletes the holding; buying the full proceeds back at the same
price restores `shares = 500` exactly but sets `total_cost = 1250` —
off from the pre-sell 1000 by 250, far beyond integer-rounding slack
(at most 1 coin). -/
theorem sell_buy_roundtrip_counterexample :
    (sell_all_instrument (5/2) 0 ⟨500, 1000, 2⟩).2 = none ∧
    buy_instrument (5/2) (sell_all_instrument (5/2) 0 ⟨500, 1000, 2⟩).1
        (sell_all_instrument (5/2) 0 ⟨500, 1000, 2⟩).1
        (sell_all_instrument (5/2) 0 ⟨500, 1000, 2⟩).2
      = some (0, ⟨500, 1250, 5/2⟩) ∧
    ¬ |(1250 : ℚ) - (1000 : ℚ)| ≤ 1 := by
  refine ⟨?_, ?_, by norm_num⟩ <;>
    simp only [sell_all_instrument, buy_instrument] <;>
    norm_num [pyInt]

/-- C8 (amended): selling all shares and immediately re-buying the full
integer proceeds at the same price restores the cash balance exactly and
the share count to within one rounding unit (`1/price`) below its
pre-sell value; but `total_cost` is rebased to the integer-rounded
market value `int(shares·price)` of the position — within 1 coin of the
pre-sell `total_cost` only when that equalled the market value (i.e.
when the price equals the average cost), not in general. -/
theorem sell_all_buy_back (price : ℚ) (coins : Int) (h : Holding)
    (hp : 0 < price) (hs : 0 ≤ h.shares) (hc : 0 ≤ coins)
    (hmin : 100 ≤ pyInt (h.shares * price)) :
    (sell_all_instrument price coins h).2 = none ∧
    ∃ h2 : Holding,
      buy_instrument price (pyInt (h.shares * price))
          (sell_all_instrument price coins h).1
          (sell_all_instrument price coins h).2
        = some (coins, h2) ∧
      h.shares - 1/price < h2.shares ∧
      h2.shares ≤ h.shares ∧
      h2.total_cost = (pyInt (h.shares * price) : ℚ) ∧
      |h2.total_cost - h.shares * price| ≤ 1 := by
  have hsp : (0 : ℚ) ≤ h.shares * price := mul_nonneg hs (le_of_lt hp)
  have hle : (pyInt (h.shares * price) : ℚ) ≤ h.shares * price := pyInt_le _ hsp
  have hgt : h.shares * price - 1 < (pyInt (h.shares * price) : ℚ) :=
    lt_pyInt_add_one _ hsp
  have hnone : (sell_all_instrument price coins h).2 = none := by
    simp only [sell_all_instrument]
    rw [if_pos (by rw [sub_self]; norm_num)]
  have hfst : (sell_all_instrument price coins h).1 = coins + pyInt (h.shares * price) :=
    rfl
  refine ⟨hnone, ⟨(pyInt (h.shares * price) : ℚ) / price, (pyInt (h.shares * price) : ℚ),
    (pyInt (h.shares * price) : ℚ) / ((pyInt (h.shares * price) : ℚ) / price)⟩,
    ?_, ?_, ?_, rfl, ?_⟩
  · rw [hnone, hfst]
    simp only [buy_instrument]
    rw [if_neg (by omega), if_neg (by omega)]
    simp only [Option.getD]
    norm_num
  · rw [lt_div_iff hp]
    have hexp : (h.shares - 1/price) * price = h.shares * price - 1 := by
      field_simp
    rw [hexp]
    linarith
  · rw [div_le_iff hp]
    exact hle
  · rw [abs_le]
    constructor <;> linarith

/-- Holding of the C8 witness: 500 shares, cost 1000, average price 2. -/
def c8Holding : Holding := ⟨500, 1000, 2⟩

/-- Witness for the amended C8 theorem at a concrete input: market price
2.5 on `c8Holding`. -/
theorem sell_all_buy_back_witness :
    (sell_all_instrument (5/2) 0 c8Holding).2 = none ∧
    ∃ h2 : Holding,
      buy_instrument (5/2) (pyInt (c8Holding.shares * (5/2)))
          (sell_all_instrument (5/2) 0 c8Holding).1
          (sell_all_instrument (5/2) 0 c8Holding).2
        = some (0, h2) ∧
      c8Holding.shares - 1/(5/2) < h2.shares ∧
      h2.shares ≤ c8Holding.shares ∧
      h2.total_cost = (pyInt (c8Holding.shares * (5/2)) : ℚ) ∧
      |h2.total_cost - c8Holding.shares * (5/2)| ≤ 1 :=
  sell_all_buy_back (5/2) 0 c8Holding (by norm_num) (by norm_num [c8Holding])
    (le_refl 0) (by norm_num [pyInt, c8Holding])
